import Mathlib

/-!
A shallow embedding of `src/csp.py` (class `CSP`: a binary-CSP solver with
AC-3 propagation and backtracking search), together with theorems checking
the natural-language specification against the code.

Modelling conventions:
* Python variable names and values are modelled as `Nat` (the claims are
  insensitive to the value type).
* Python dictionaries are modelled as association lists in insertion order
  (`dictGet` / `dictSet`); a dict assignment to an existing key keeps its
  position, a new key is appended, exactly as the concrete instances built
  here use them.
* Python runtime errors (KeyError, TypeError, iterating `None`) and fuel
  exhaustion of the embedded loops are modelled as `Option.none`.
* `copy.deepcopy` of a dict of lists is the identity on our immutable
  values, so it needs no explicit model.
* The mutable per-object state of the Python `CSP` instance during search
  (`self.domains`, `self.backtrack_called`, `self.backtrack_failed`) is
  threaded explicitly as a `SearchState`; `self.constraints` is never
  written after construction and is passed as a read-only value.
* `random.choice` is modelled by an oracle `Nat → Nat` consumed through a
  counter `t` in the state: the choice at time `t` picks index
  `oracle t % length` of the candidate list.
* `debug_print` writes the board to stdout, but it also indexes the 81
  Sudoku cell keys of its argument and so raises a KeyError on any other
  assignment; only that error condition is modelled (`debugPrintOk`),
  the output itself is not.
-/

abbrev Var : Type := Nat
abbrev Val : Type := Nat

/-- A Python dict, as an association list in insertion order. -/
abbrev Dict (α : Type) : Type := List (Var × α)

/-- Working/original domains: `self.domains` and `assignment` both map a
variable to a list of values. -/
abbrev DomMap : Type := Dict (List Val)

/-- `self.constraints`: `constraints[i][j]` is the list of legal value
pairs for the arc i→j. -/
abbrev ConsMap : Type := Dict (Dict (List (Val × Val)))

/-- `d.get(k)` / `d[k]` lookup on a dict. -/
def dictGet {α : Type} : List (Var × α) → Var → Option α
  | [], _ => none
  | (k', v) :: t, k => if k' = k then some v else dictGet t k

/-- `d[k] = v` on a dict: overwrite in place, else append. -/
def dictSet {α : Type} : List (Var × α) → Var → α → List (Var × α)
  | [], k, v => [(k, v)]
  | (k', v') :: t, k, v => if k' = k then (k, v) :: t else (k', v') :: dictSet t k v

/-- Two-level lookup `self.constraints.get(i).get(j)`. -/
def dictGet2 (cons : ConsMap) (i j : Var) : Option (List (Val × Val)) :=
  (dictGet cons i).bind (fun ci => dictGet ci j)

/-- Python `del lst[n]` (positional deletion). -/
def delAt : List Val → Nat → List Val
  | [], _ => []
  | _ :: t, 0 => t
  | h :: t, n + 1 => h :: delAt t n

/-- The removal loop at the end of `CSP.revise`:
`for key, d in enumerate(self.domains.get(i)): if d == x: del self.domains.get(i)[key]`.
The list iterator holds a position `p`; a deletion at `p` shifts later
elements down one, so the element following a deleted one is skipped.
The fuel argument only makes the recursion structural: the position grows
by one per step and the list never grows, so `lst.length + 1` steps from
position 0 always reach the exit. -/
def delEnum (x : Val) : Nat → List Val → Nat → List Val
  | 0, lst, _ => lst
  | fuel + 1, lst, p =>
    if h : p < lst.length then
      if lst.get ⟨p, h⟩ = x then delEnum x fuel (delAt lst p) (p + 1)
      else delEnum x fuel lst (p + 1)
    else lst

/-- The data built by `CSP.__init__` plus the registration methods.
`variables`, `domains`, `constraints` are the fields of the Python object
as they stand right after construction of the graph. -/
structure CSP where
  vars : List Var      -- `self.variables` (the name is reserved in Lean 4)
  domains : DomMap
  constraints : ConsMap
deriving DecidableEq, Repr

def CSP.empty : CSP := ⟨[], [], []⟩

/-- `CSP.add_variable(name, domain)`: appends the name and registers the
domain list and an empty inner constraint dict. -/
def addVariable (csp : CSP) (name : Var) (domain : List Val) : CSP :=
  { vars := csp.vars ++ [name]
    domains := dictSet csp.domains name domain
    constraints := dictSet csp.constraints name [] }

/-- `CSP.get_all_possible_pairs(a, b)`: `itertools.product(a, b)` in order. -/
def getAllPossiblePairs (a b : List Val) : List (Val × Val) :=
  a.flatMap (fun x => b.map (fun y => (x, y)))

/-- `CSP.get_all_arcs()`: every pair (i, j) with `j in self.constraints[i]`,
in dict iteration order. -/
def getAllArcs (cons : ConsMap) : List (Var × Var) :=
  cons.flatMap (fun p => p.2.map (fun q => (p.1, q.1)))

/-- `CSP.get_all_neighboring_arcs(var)`:
`[ (i, var) for i in self.constraints[var] ]` — note that `i` ranges over
the keys of the *outgoing* dict `self.constraints[var]`. A missing key
(unregistered variable, a KeyError in Python) is modelled as the empty
dict, which no claim exercises. -/
def getAllNeighboringArcs (cons : ConsMap) (var : Var) : List (Var × Var) :=
  ((dictGet cons var).getD []).map (fun p => (p.1, var))

/-- `CSP.add_constraint_one_way(i, j, filter_function)`: when no i→j entry
exists yet, `constraints[i][j]` is first set to the full Cartesian product
of the current domains and then filtered; when an entry already exists the
`if` is skipped and the *stored* pair list is filtered again. KeyError on
an unregistered `i` (or missing domain) is `none`. -/
def addConstraintOneWay (csp : CSP) (i j : Var) (f : Val → Val → Bool) : Option CSP :=
  match dictGet csp.constraints i with
  | none => none
  | some ci =>
    match dictGet ci j with
    | some cur =>
      some { csp with
              constraints := dictSet csp.constraints i
                (dictSet ci j (cur.filter (fun v => f v.1 v.2))) }
    | none =>
      match dictGet csp.domains i, dictGet csp.domains j with
      | some di, some dj =>
        some { csp with
                constraints := dictSet csp.constraints i
                  (dictSet ci j ((getAllPossiblePairs di dj).filter (fun v => f v.1 v.2))) }
      | _, _ => none

/-- The outer loop of `CSP.revise`: `for x in self.domains.get(i)` with a
positional iterator index `k` over the list object `self.domains[i]`,
whose in-place deletions (`delEnum`) are visible to the iterator.  For
each `x`, `found` scans `self.domains.get(j)` for a supporting pair in
`self.constraints.get(i).get(j)`; when no support exists the removal loop
runs from position 0.  A missing domain or (with a non-empty j-domain) a
missing pair list is a Python TypeError, i.e. `none`. -/
def reviseAux (cons : ConsMap) (i j : Var) :
    Nat → DomMap → Nat → Bool → Option (DomMap × Bool)
  | 0, _, _, _ => none
  | fuel + 1, doms, k, revised =>
    let di := (dictGet doms i).getD []
    if h : k < di.length then
      match dictGet doms j with
      | none => none
      | some dj =>
        let x := di.get ⟨k, h⟩
        match dictGet2 cons i j with
        | some pairs =>
          if dj.any (fun y => pairs.contains (x, y)) then
            reviseAux cons i j fuel doms (k + 1) revised
          else
            reviseAux cons i j fuel (dictSet doms i (delEnum x (di.length + 1) di 0)) (k + 1) true
        | none =>
          if dj.isEmpty then
            reviseAux cons i j fuel (dictSet doms i (delEnum x (di.length + 1) di 0)) (k + 1) true
          else none
    else some (doms, revised)

/-- `CSP.revise(assignment, i, j)`.  The `assignment` parameter is
accepted but — exactly as in the source — never read and never written:
every read and every deletion in the body targets `self.domains`
(`doms`).  Returns the updated `self.domains` and the `revised` flag;
`none` models a Python TypeError (`self.domains.get(i)` being `None`). -/
def revise (cons : ConsMap) ( assignment : DomMap) (doms : DomMap) (i j : Var) :
    Option (DomMap × Bool) :=
  match dictGet doms i with
  | none => none
  | some di => reviseAux cons i j (di.length + 1) doms 0 false

/-- `CSP.inference(assignment, queue)` — AC-3.  Pops arcs FIFO; after a
revision that emptied `self.domains[i]` returns `False` immediately;
otherwise appends every neighboring arc of `i` except the arc just
processed (`cmp(k, (i, j)) is not 0`, i.e. tuple inequality).  The
`assignment` parameter is only ever forwarded to `revise`, which ignores
it.  `fuel` bounds the loop; exhaustion is `none`. -/
def inference (cons : ConsMap) (assignment : DomMap) :
    Nat → DomMap → List (Var × Var) → Option (DomMap × Bool)
  | 0, _, _ => none
  | fuel + 1, doms, queue =>
    match queue with
    | [] => some (doms, true)
    | (i, j) :: rest =>
      match revise cons assignment doms i j with
      | none => none
      | some (doms', revised) =>
        if revised then
          match dictGet doms' i with
          | none => none
          | some di =>
            if di.length = 0 then some (doms', false)
            else
              inference cons assignment fuel doms'
                (rest ++ (getAllNeighboringArcs cons i).filter (fun a => !(a == (i, j))))
        else inference cons assignment fuel doms' rest

/-- The completeness test at the top of `CSP.backtrack`: `finished` stays
`True` unless some variable's list has length greater than one. -/
def finishedCheck (assignment : DomMap) : Bool :=
  !(assignment.any (fun p => decide (1 < p.2.length)))

/-- The `unassigned` list built inside `CSP.select_unassigned_variable`:
the variables whose list of legal values has length greater than one, in
dict iteration order. -/
def unassignedVars (assignment : DomMap) : List Var :=
  (assignment.filter (fun p => decide (1 < p.2.length))).map Prod.fst

/-- `CSP.select_unassigned_variable(assignment)`: `random.choice` over
`unassignedVars`, modelled by the oracle index `oracle t` reduced modulo
the list length; `random.choice` on an empty list raises, i.e. `none`. -/
def selectUnassignedVariable (oracle : Nat → Nat) (t : Nat) (assignment : DomMap) :
    Option Var :=
  if h : 0 < (unassignedVars assignment).length then
    some ((unassignedVars assignment).get
      ⟨oracle t % (unassignedVars assignment).length, Nat.mod_lt _ h⟩)
  else none

/-- The mutable state of the Python `CSP` object during the search:
`self.domains` (destructively revised by AC-3), the two diagnostics
counters, and the oracle counter standing for the state of `random`. -/
structure SearchState where
  doms : DomMap
  called : Nat
  failed : Nat
  t : Nat
deriving DecidableEq, Repr

/-- The value a `CSP.backtrack` call evaluates to in Python: either the
`assignment` dict, or the literal `False` used as the failure sentinel. -/
inductive PyResult where
  | assignment (a : DomMap)
  | pyFalse
deriving DecidableEq, Repr

/-- The Nat code of the Python board-cell name `str(i) + "-" + str(j)` —
the dict keys `debug_print` indexes.  The offset keeps these codes
distinct from the small integer names used by the other concrete
instances here, just as the Python string "i-j" is distinct from any
integer key. -/
def cellVar (i j : Nat) : Var := 100 + 9 * i + j

/-- The error condition of `debug_print(solution)`: the function indexes
`solution[str(i) + "-" + str(j)]` for every i, j in 0..8, so it raises a
KeyError as soon as one of the 81 cell keys is missing.  Its board
output is I/O and is not modelled; the cell values it concatenates are
the Python strings "1".."9", for which `Val` codes stand. -/
def debugPrintOk (solution : DomMap) : Bool :=
  (List.range 9).all (fun i => (List.range 9).all (fun j =>
    (dictGet solution (cellVar i j)).isSome))

/-- A point of control inside `CSP.backtrack`: `call` is an invocation of
the function on `assignment`; `loop` is the `for value in
self.domains[var]` loop at iterator position `k` with the current (partly
pruned by the `del` statements after failed values) `assignment`. -/
inductive BTFrame where
  | call (assignment : DomMap)
  | loop (var : Var) (assignment : DomMap) (k : Nat)

/-- `CSP.backtrack(assignment)`, both its entry and its value loop.

Entry (`BTFrame.call`): increments `self.backtrack_called`, returns
`assignment` when no variable's list has length > 1, else calls
`debug_print(assignment)` — a KeyError, i.e. `none`, unless all 81
board cell keys are present — and then selects an undecided variable
and enters the value loop.

Value loop (`BTFrame.loop`): a positional iterator index `k` over the
current (mutable!) list `self.domains[var]`; each iteration deep-copies
`assignment`, sets `var ↦ [value]`, runs `inference` over all arcs,
recurses on success, and when the value did not lead to a solution
removes `value` from `assignment[var]` (the `enumerate` + `del` +
`break` loop; Python compares with `is`, which coincides with equality
on the small integers used here) before the next iteration.  When the
loop ends, `self.backtrack_failed` is incremented and the Python `False`
is returned.  Fuel exhaustion is `none`. -/
def backtrackGo (cons : ConsMap) (oracle : Nat → Nat) :
    Nat → BTFrame → SearchState → Option (SearchState × PyResult)
  | 0, _, _ => none
  | fuel + 1, BTFrame.call assignment, st =>
    let st1 : SearchState := { st with called := st.called + 1 }
    if finishedCheck assignment then some (st1, PyResult.assignment assignment)
    else if debugPrintOk assignment then
      match selectUnassignedVariable oracle st1.t assignment with
      | none => none
      | some var =>
        backtrackGo cons oracle fuel (BTFrame.loop var assignment 0) { st1 with t := st1.t + 1 }
    else none
  | fuel + 1, BTFrame.loop var assignment k, st =>
    let dv := (dictGet st.doms var).getD []
    if h : k < dv.length then
      let value := dv.get ⟨k, h⟩
      let newAssignment := dictSet assignment var [value]
      match inference cons newAssignment fuel st.doms (getAllArcs cons) with
      | none => none
      | some (doms', ok) =>
        if ok then
          match backtrackGo cons oracle fuel (BTFrame.call newAssignment) { st with doms := doms' } with
          | none => none
          | some (st2, PyResult.assignment a) => some (st2, PyResult.assignment a)
          | some (st2, PyResult.pyFalse) =>
            backtrackGo cons oracle fuel
              (BTFrame.loop var
                (dictSet assignment var (((dictGet assignment var).getD []).erase value)) (k + 1))
              st2
        else
          backtrackGo cons oracle fuel
            (BTFrame.loop var
              (dictSet assignment var (((dictGet assignment var).getD []).erase value)) (k + 1))
            { st with doms := doms' }
    else some ({ st with failed := st.failed + 1 }, PyResult.pyFalse)

/-- `CSP.backtrack(assignment)` as called from the outside. -/
def backtrack (cons : ConsMap) (oracle : Nat → Nat) (fuel : Nat) (st : SearchState)
    (assignment : DomMap) : Option (SearchState × PyResult) :=
  backtrackGo cons oracle fuel (BTFrame.call assignment) st

/-- `CSP.backtracking_search()`: deep-copies `self.domains` into
`assignment`, runs `inference` over all arcs — discarding its boolean
result, exactly as the source does — and then calls `backtrack`. -/
def backtracking_search (csp : CSP) (oracle : Nat → Nat) (fuel : Nat) :
    Option (SearchState × PyResult) :=
  match inference csp.constraints csp.domains fuel csp.domains (getAllArcs csp.constraints) with
  | none => none
  | some (doms', _) => backtrack csp.constraints oracle fuel ⟨doms', 0, 0, 0⟩ csp.domains

/-- Whether an i→j constraint is registered. -/
def registeredB (csp : CSP) (i j : Var) : Bool :=
  (dictGet2 csp.constraints i j).isSome

/-- A CSP with its constraint dict replaced (notation helper for stating
what `add_constraint_one_way` produces). -/
def withCons (csp : CSP) (c : ConsMap) : CSP :=
  { csp with constraints := c }

/-- A fixed oracle for concrete runs (the concrete instances below leave
it no actual choice). -/
def zeroOracle : Nat → Nat := fun _ => 0

/-! ### Dictionary lemmas -/

theorem dictGet_dictSet_self {α : Type} (d : List (Var × α)) (k : Var) (v : α) :
    dictGet (dictSet d k v) k = some v := by
  induction d with
  | nil => simp [dictGet, dictSet]
  | cons hd t ih =>
    obtain ⟨k', v'⟩ := hd
    by_cases hk : k' = k
    · simp [dictSet, hk, dictGet]
    · simp [dictSet, hk, dictGet, ih]

theorem dictGet_isSome_of_mem {α : Type} {l : List (Var × α)} {k : Var} {a : α}
    (h : (k, a) ∈ l) : (dictGet l k).isSome = true := by
  induction l with
  | nil => simp at h
  | cons hd t ih =>
    obtain ⟨k', v'⟩ := hd
    rcases List.mem_cons.mp h with h1 | h2
    · have hk : k' = k := by
        have := congrArg Prod.fst h1
        simpa using this.symm
      simp [dictGet, hk]
    · by_cases hk : k' = k
      · simp [dictGet, hk]
      · simpa [dictGet, hk] using ih h2

theorem dictGet_some_mem {α : Type} {l : List (Var × α)} {k : Var} {a : α}
    (h : dictGet l k = some a) : (k, a) ∈ l := by
  induction l with
  | nil => simp [dictGet] at h
  | cons hd t ih =>
    obtain ⟨k', v'⟩ := hd
    by_cases hk : k' = k
    · subst hk
      simp [dictGet] at h
      subst h
      exact List.mem_cons_self ..
    · simp [dictGet, hk] at h
      exact List.mem_cons_of_mem _ (ih h)

theorem dictGet_of_mem_nodup {α : Type} {l : List (Var × α)} {p : Var × α}
    (hnd : (l.map Prod.fst).Nodup) (hmem : p ∈ l) : dictGet l p.1 = some p.2 := by
  induction l with
  | nil => simp at hmem
  | cons hd t ih =>
    obtain ⟨k', v'⟩ := hd
    simp only [List.map_cons, List.nodup_cons] at hnd
    rcases List.mem_cons.mp hmem with h1 | h2
    · subst h1
      simp [dictGet]
    · have hkne : k' ≠ p.1 := by
        intro hcontra
        exact hnd.1 (hcontra ▸ List.mem_map_of_mem Prod.fst h2)
      simp only [dictGet, if_neg hkne]
      exact ih hnd.2 h2

/-! ### Concrete instances used by the claims -/

/-- Two variables 0 and 1, each with the singleton domain [1], the
constraint registered in both directions with an always-false predicate
(empty allowed-pair sets): an unsatisfiable instance in which the initial
propagation fails. -/
def c1cspOpt : Option CSP :=
  (addConstraintOneWay (addVariable (addVariable CSP.empty 0 [1]) 1 [1]) 0 1
      (fun _ _ => false)).bind
    (fun c => addConstraintOneWay c 1 0 (fun _ _ => false))

def c1csp : CSP := c1cspOpt.getD CSP.empty

/-- Variable 0 with domain [1, 2] and variable 1 with domain [3]; the arc
0→1 carries the empty pair set (no value of 0 is supported) while 1→0
allows everything. -/
def c9cspOpt : Option CSP :=
  (addConstraintOneWay (addVariable (addVariable CSP.empty 0 [1, 2]) 1 [3]) 0 1
      (fun _ _ => false)).bind
    (fun c => addConstraintOneWay c 1 0 (fun _ _ => true))

def c9csp : CSP := c9cspOpt.getD CSP.empty

/-- A single variable 0 registered with an empty domain. -/
def c6csp : CSP := addVariable CSP.empty 0 []

/-- The 81 board cells (i, j) with i, j in 0..8, row-major. -/
def boardCells : List (Nat × Nat) :=
  (List.range 9).flatMap (fun i => (List.range 9).map (fun j => (i, j)))

/-- An 81-variable board-keyed graph: every cell has the singleton
domain [1] except cell (0, 0), which has [1, 2] (the values stand for
the Python strings "1" and "2"). -/
def c5base : CSP :=
  boardCells.foldl
    (fun c p => addVariable c (cellVar p.1 p.2) (if p = (0, 0) then [1, 2] else [1]))
    CSP.empty

/-- `c5base` with the arc (0,0)→(0,1) carrying the empty pair set (no
value of cell (0,0) is supported) and (0,1)→(0,0) allowing everything:
every branch fails, while `debug_print` succeeds on the board keys. -/
def c5cspOpt : Option CSP :=
  (addConstraintOneWay c5base (cellVar 0 0) (cellVar 0 1) (fun _ _ => false)).bind
    (fun c => addConstraintOneWay c (cellVar 0 1) (cellVar 0 0) (fun _ _ => true))

def c5csp : CSP := c5cspOpt.getD CSP.empty

/-- Two variables with domain [1, 2] each and no constraint yet. -/
def c7base : CSP := addVariable (addVariable CSP.empty 0 [1, 2]) 1 [1, 2]

/-- Two variables with domain [1]; only the direction 0→1 is registered
(with the always-true predicate). -/
def c8csp : CSP :=
  (addConstraintOneWay (addVariable (addVariable CSP.empty 0 [1]) 1 [1]) 0 1
      (fun _ _ => true)).getD CSP.empty

/-! ### Claim theorems -/

/-- C1: refuted on the code. On `c1csp` the arc (0, 1) is registered with
the empty allowed-pair set, yet `backtracking_search` returns the
assignment 0 ↦ [1], 1 ↦ [1] as solved: the value pair (1, 1) of the
registered arc (0, 1) is not a member of the stored pair set, so a
returned solved assignment can violate a registered constraint.
(`revise` prunes the graph's domain table instead of the branch
assignment, so no constraint is ever checked against the chosen values.) -/
theorem c1_soundness_violated :
    backtracking_search c1csp zeroOracle 20
      = some (⟨[(0, []), (1, [1])], 1, 0, 0⟩, PyResult.assignment [(0, [1]), (1, [1])]) ∧
    (0, 1) ∈ getAllArcs c1csp.constraints ∧
    dictGet2 c1csp.constraints 0 1 = some [] ∧
    (1, 1) ∉ ([] : List (Val × Val)) := by decide

/-- C2: refuted on the code. Running the search on `c1csp` changes the
graph's domain table: variable 0 was registered with domain [1] at
`add_variable` time, but after `backtracking_search` the table holds the
empty list for 0 — `revise` deletes values from `self.domains`, the
original store, instead of from the per-branch assignment. -/
theorem c2_original_domains_mutated :
    (backtracking_search c1csp zeroOracle 20).map (fun r => r.1.doms)
      = some [(0, []), (1, [1])] ∧
    dictGet c1csp.domains 0 = some [1] ∧
    [(0, []), (1, [1])] ≠ c1csp.domains := by decide

/-- C3: refuted on the code. On `c9csp` (0 ↦ [1, 2], 1 ↦ [3], empty 0→1
pair set) the call `revise(assignment, 0, 1)` should — per the claim —
remove both 1 and 2 from variable 0's working domain in `assignment`
(neither has a supporting pair). Instead the code leaves `assignment`
untouched (the embedding does not even consume the argument, mirroring
the source) and deletes from the graph's domain table, where the equally
unsupported value 2 survives because the loop deletes from the very list
it is iterating. -/
theorem c3_revise_wrong_store_and_skips :
    revise c9csp.constraints c9csp.domains c9csp.domains 0 1
      = some ([(0, [2]), (1, [3])], true) ∧
    dictGet2 c9csp.constraints 0 1 = some [] ∧
    dictGet c9csp.domains 0 = some [1, 2] ∧
    ([(0, [2]), (1, [3])] : DomMap) ≠ [(0, []), (1, [3])] := by decide

/-- C4: refuted on the code. On `c1csp` the initial propagation over all
registered arcs fails (`inference` returns the boolean `False`), yet
`backtracking_search` discards that result: `backtrack` is still called
(the `called` counter ends at 1) and the entry point returns the
untouched initial assignment instead of an unsatisfiable outcome. -/
theorem c4_failed_propagation_ignored :
    inference c1csp.constraints c1csp.domains 20 c1csp.domains (getAllArcs c1csp.constraints)
      = some ([(0, []), (1, [1])], false) ∧
    backtracking_search c1csp zeroOracle 20
      = some (⟨[(0, []), (1, [1])], 1, 0, 0⟩, PyResult.assignment [(0, [1]), (1, [1])]) := by
  decide

/-- C5: refuted on the code, in both of its failure modes. On the
integer-keyed unsatisfiable instance `c9csp` the entry point does not
return a typed result at all: `backtrack` reaches `debug_print`, which
raises a KeyError on any non-board-keyed assignment (modelled `none`) —
the no-solution outcome surfaces as an exception. On the board-keyed
unsatisfiable instance `c5csp`, where `debug_print` succeeds, every
branch fails and the entry point returns the Python boolean literal
`False` (modelled `PyResult.pyFalse`) — the untyped falsy sentinel of
`backtrack`'s final `return False`. In neither case is there a typed
Unsatisfiable result. -/
theorem c5_no_typed_unsat_result :
    backtracking_search c9csp zeroOracle 30 = none ∧
    (backtracking_search c5csp zeroOracle 40).map (fun r => r.2) = some PyResult.pyFalse ∧
    (backtracking_search c5csp zeroOracle 40).map (fun r => (r.1.called, r.1.failed))
      = some (1, 1) := by decide

/-- C6: refuted on the code. On `c6csp`, whose single variable 0 has the
empty working domain, the completeness test of `backtrack` accepts the
assignment (it only rejects domains of length greater than one), so the
search returns 0 ↦ [] as a solved assignment instead of treating the
empty working domain as a branch failure. -/
theorem c6_empty_domain_returned_solved :
    backtracking_search c6csp zeroOracle 10
      = some (⟨[(0, [])], 1, 0, 0⟩, PyResult.assignment [(0, [])]) ∧
    finishedCheck [(0, [])] = true ∧
    dictGet ([(0, [])] : DomMap) 0 = some [] := by decide

/-- C7: counterexample to the claim as stated. On `c7base` (domains
[1, 2] × [1, 2]), registering the predicate `x == 1` and then `x == 2`
for the same pair (0, 1) stores the empty relation — not the pairs of
the full Cartesian product satisfying the second predicate alone, which
would be [(2, 1), (2, 2)]. -/
theorem c7_replacement_counterexample :
    ((addConstraintOneWay c7base 0 1 (fun x _ => x == 1)).bind
        (fun c => addConstraintOneWay c 0 1 (fun x _ => x == 2))).map
          (fun c => dictGet2 c.constraints 0 1)
      = some (some []) ∧
    some (some ([] : List (Val × Val)))
      ≠ some (some ((getAllPossiblePairs [1, 2] [1, 2]).filter (fun v => v.1 == 2))) := by
  decide

/-- C7 (amended): calling `add_constraint(i, j, q)` after an earlier
`add_constraint(i, j, p)` leaves the stored i→j relation equal to the
pairs of the Cartesian product domain(i) × domain(j) that satisfy both
`p` and `q`: the second call filters the already-stored relation instead
of rebuilding it from the full product. -/
theorem c7_second_call_filters_both (csp : CSP) (i j : Var) (p q : Val → Val → Bool)
    (ci : Dict (List (Val × Val))) (di dj : List Val)
    (hci : dictGet csp.constraints i = some ci) (hj : dictGet ci j = none)
    (hdi : dictGet csp.domains i = some di) (hdj : dictGet csp.domains j = some dj) :
    ∃ c1 c2, addConstraintOneWay csp i j p = some c1 ∧
      addConstraintOneWay c1 i j q = some c2 ∧
      dictGet2 c2.constraints i j
        = some ((getAllPossiblePairs di dj).filter (fun v => p v.1 v.2 && q v.1 v.2)) := by
  have h1 : addConstraintOneWay csp i j p
      = some (withCons csp (dictSet csp.constraints i (dictSet ci j
          ((getAllPossiblePairs di dj).filter (fun v => p v.1 v.2))))) := by
    simp only [addConstraintOneWay, hci, hj, hdi, hdj, withCons]
  have h2 : addConstraintOneWay (withCons csp (dictSet csp.constraints i (dictSet ci j
        ((getAllPossiblePairs di dj).filter (fun v => p v.1 v.2))))) i j q
      = some (withCons csp (dictSet (dictSet csp.constraints i (dictSet ci j
          ((getAllPossiblePairs di dj).filter (fun v => p v.1 v.2)))) i
            (dictSet (dictSet ci j ((getAllPossiblePairs di dj).filter (fun v => p v.1 v.2))) j
              (((getAllPossiblePairs di dj).filter (fun v => p v.1 v.2)).filter
                (fun v => q v.1 v.2))))) := by
    simp only [addConstraintOneWay, withCons, dictGet_dictSet_self]
  refine ⟨_, _, h1, h2, ?_⟩
  simp only [withCons, dictGet2, dictGet_dictSet_self, Option.some_bind]
  rw [List.filter_filter]
  exact congrArg some (List.filter_congr (fun a _ => Bool.and_comm _ _))

/-- C7 witness: the amended theorem applied to the concrete instance
`c7base` with the predicates `x == 1` and `x == 2`. -/
theorem c7_second_call_filters_both_witness :
    dictGet c7base.constraints 0 = some [] ∧
    dictGet ([] : Dict (List (Val × Val))) 1 = none ∧
    dictGet c7base.domains 0 = some [1, 2] ∧
    dictGet c7base.domains 1 = some [1, 2] ∧
    (∃ c1 c2, addConstraintOneWay c7base 0 1 (fun x _ => x == 1) = some c1 ∧
      addConstraintOneWay c1 0 1 (fun x _ => x == 2) = some c2 ∧
      dictGet2 c2.constraints 0 1
        = some ((getAllPossiblePairs [1, 2] [1, 2]).filter
            (fun v => (v.1 == 1) && (v.1 == 2)))) :=
  ⟨by decide, by decide, by decide, by decide,
    c7_second_call_filters_both c7base 0 1 (fun x _ => x == 1) (fun x _ => x == 2)
      [] [1, 2] [1, 2] (by decide) (by decide) (by decide) (by decide)⟩

/-- C8: counterexample to the claim as stated. In `c8csp` only the
direction 0→1 is registered; the claim then demands
`neighbor_arcs(1) = {(0, 1)}` and `neighbor_arcs(0) = {}`. The code
instead iterates the *outgoing* dict `self.constraints[var]`: it omits
(0, 1) from `neighbor_arcs(1)` and produces (1, 0) in `neighbor_arcs(0)`
although 1→0 is not a registered constraint. -/
theorem c8_target_arc_counterexample :
    registeredB c8csp 0 1 = true ∧
    (0, 1) ∉ getAllNeighboringArcs c8csp.constraints 1 ∧
    getAllNeighboringArcs c8csp.constraints 0 = [(1, 0)] ∧
    registeredB c8csp 1 0 = false := by decide

/-- C8 (amended): for a registered variable v, `neighbor_arcs(v)`
contains exactly the pairs (k, v) for those k such that v→k is a
registered constraint — it is keyed by the arcs *leaving* v, merely
presented with v as the second component. (Only on graphs where every
constraint is registered in both directions does this coincide with the
arcs whose target is v.) -/
theorem c8_neighbor_arcs_outgoing (cons : ConsMap) (v x y : Var)
    (cv : Dict (List (Val × Val))) (hv : dictGet cons v = some cv) :
    ((x, y) ∈ getAllNeighboringArcs cons v) ↔ (y = v ∧ (dictGet cv x).isSome = true) := by
  unfold getAllNeighboringArcs
  rw [hv]
  simp only [Option.getD_some, List.mem_map]
  constructor
  · rintro ⟨q, hq, hqe⟩
    obtain ⟨h1, h2⟩ := Prod.mk.injEq .. ▸ hqe
    refine ⟨h2.symm, ?_⟩
    exact dictGet_isSome_of_mem (h1 ▸ hq : (x, q.2) ∈ cv)
  · rintro ⟨rfl, hsome⟩
    obtain ⟨a, ha⟩ := Option.isSome_iff_exists.mp hsome
    exact ⟨(x, a), dictGet_some_mem ha, rfl⟩

/-- C8 witness: the amended characterization applied to the concrete
constraint dict of `c8csp` at v = 0, arc (1, 0). -/
theorem c8_neighbor_arcs_outgoing_witness :
    dictGet c8csp.constraints 0 = some [(1, [(1, 1)])] ∧
    (((1, 0) ∈ getAllNeighboringArcs c8csp.constraints 0)
      ↔ (0 = 0 ∧ (dictGet [(1, [(1, 1)])] 1).isSome = true)) :=
  ⟨by decide, c8_neighbor_arcs_outgoing c8csp.constraints 0 1 0 [(1, [(1, 1)])] (by decide)⟩

/-- C9: refuted on the code. On `c9csp`, the first `inference` run over
all arcs succeeds (returns `True`) but leaves the unsupported value 2 in
variable 0's domain — `revise` skipped it by deleting from the list it
was iterating. A second run on the resulting domains with the very same
queue is therefore not a no-op: it removes 2, empties the domain and
returns failure. -/
theorem c9_propagation_not_idempotent :
    inference c9csp.constraints c9csp.domains 30 c9csp.domains (getAllArcs c9csp.constraints)
      = some ([(0, [2]), (1, [3])], true) ∧
    inference c9csp.constraints c9csp.domains 30 [(0, [2]), (1, [3])]
        (getAllArcs c9csp.constraints)
      = some ([(0, []), (1, [3])], false) ∧
    ([(0, []), (1, [3])] : DomMap) ≠ [(0, [2]), (1, [3])] := by decide

/-- C10: confirmed. Whenever the completeness check of `backtrack` fails
(some variable's list has length greater than one), the `unassigned`
list built inside `select_unassigned_variable` is non-empty, the random
choice succeeds, and the selected variable's working domain has length
greater than one. (The Python-dict hypothesis: the assignment's keys are
distinct.) -/
theorem c10_selection_never_fails (assignment : DomMap) (oracle : Nat → Nat) (t : Nat)
    (hnd : (assignment.map Prod.fst).Nodup)
    (hfin : finishedCheck assignment = false) :
    unassignedVars assignment ≠ [] ∧
      ∃ var dv, selectUnassignedVariable oracle t assignment = some var ∧
        dictGet assignment var = some dv ∧ 1 < dv.length := by
  have hany : assignment.any (fun pr => decide (1 < pr.2.length)) = true := by
    simpa [finishedCheck] using hfin
  obtain ⟨pr, hp, hplen⟩ := List.any_eq_true.mp hany
  have hpmem : pr ∈ assignment.filter (fun q => decide (1 < q.2.length)) :=
    List.mem_filter.mpr ⟨hp, hplen⟩
  have hu : pr.1 ∈ unassignedVars assignment := List.mem_map_of_mem Prod.fst hpmem
  have hne : unassignedVars assignment ≠ [] := List.ne_nil_of_mem hu
  have hlen : 0 < (unassignedVars assignment).length := List.length_pos.mpr hne
  have hvmem : (unassignedVars assignment).get
      ⟨oracle t % (unassignedVars assignment).length, Nat.mod_lt _ hlen⟩
      ∈ unassignedVars assignment := List.get_mem _ _ _
  obtain ⟨q, hq, hqe⟩ := List.mem_map.mp hvmem
  have hqa := List.mem_filter.mp hq
  refine ⟨hne, q.1, q.2, ?_, dictGet_of_mem_nodup hnd hqa.1, of_decide_eq_true hqa.2⟩
  unfold selectUnassignedVariable
  rw [dif_pos hlen]
  exact congrArg some hqe.symm

/-- C10 witness: the theorem instantiated at the one-variable assignment
0 ↦ [1, 2] with the zero oracle. -/
theorem c10_selection_never_fails_witness :
    ((([(0, [1, 2])] : DomMap).map Prod.fst).Nodup) ∧
    finishedCheck [(0, [1, 2])] = false ∧
    (unassignedVars [(0, [1, 2])] ≠ [] ∧
      ∃ var dv, selectUnassignedVariable zeroOracle 0 [(0, [1, 2])] = some var ∧
        dictGet [(0, [1, 2])] var = some dv ∧ 1 < dv.length) :=
  ⟨by decide, by decide,
    c10_selection_never_fails [(0, [1, 2])] zeroOracle 0 (by decide) (by decide)⟩
